import Mathlib

/-!
Shallow embedding of `src/main.go` of bwks/aws-pulumi-static-site.

The program is a single Pulumi run that declares a fixed static-site stack:
an S3 bucket (website hosting, public access blocked), one object per file
of a local site directory, an ACM certificate with two DNS validation CNAME
records, a CloudFront origin-access identity and distribution, four Route53
alias records, a bucket policy, and two stack exports.

The embedding models the run as explicit state passing.  Resource outputs
that only exist after the provisioning engine applies the stack
(bucket ID/ARN, certificate ARN, distribution domain name, ...) are
symbolic `Ref` values: the program only ever forwards them between
declarations, never inspects them.  An `Env` oracle supplies the two
environment-dependent inputs (directory listing, zone lookup) and decides
which declaration calls fail, so that the first-error-wins control flow of
`main` is part of the model.
-/

namespace StaticSite

/-- Mirrors the `Project` struct (src/main.go:16), `Environment` (:20),
`Site` (:24) and `Domain` (:28): the compiled-in configuration of the run. -/
structure Config where
  projectName : String
  environmentName : String
  siteDir : String
  domainName : String
deriving Repr, DecidableEq

/-- The concrete configuration values assigned in src/main.go:48-62. -/
def defaultConfig : Config :=
  { projectName := "stratusLabs"
    environmentName := "dev"
    siteDir := "./www/_site"
    domainName := "stratuslabs.net" }

/-- Mirrors the `WebBucket` struct (src/main.go:36). -/
structure WebBucket where
  name : String
  indexDocument : String
  errorDocument : String
deriving Repr, DecidableEq

/-- The `tags` map built at src/main.go:64-69, as an association list. -/
def tagsFor (cfg : Config) : List (String × String) :=
  [("project", cfg.projectName), ("environment", cfg.environmentName)]

/-- The `priceClass` switch on the environment name, src/main.go:71-79. -/
def priceClassFor (environmentName : String) : String :=
  match environmentName with
  | "dev" => "PriceClass_100"
  | "prod" => "PriceClass_All"
  | _ => "PriceClass_100"

/-- The `WebBucket` literal built at src/main.go:81-85. -/
def webBucketFor (cfg : Config) : WebBucket :=
  { name := "www." ++ cfg.domainName
    indexDocument := "index.html"
    errorDocument := "error.html" }

/-- Result of `route53.LookupZone` (src/main.go:98); only its `Id` is used. -/
structure Zone where
  id : String
deriving Repr, DecidableEq

/-- A symbolic provisioning-engine output.  The Go program threads these
opaque output values from one resource declaration into later ones without
ever inspecting them; each constructor names the source-side expression it
stands for. -/
inductive Ref where
  /-- `bucket.ID()` -/
  | bucketId
  /-- `bucket.Arn` -/
  | bucketArn
  /-- `bucket.BucketRegionalDomainName` -/
  | bucketRegionalDomainName
  /-- `certificate.Arn` -/
  | certArn
  /-- `certificate.DomainValidationOptions.Index(i).ResourceRecordName().Elem()` -/
  | cvoName (i : Nat)
  /-- `certificate.DomainValidationOptions.Index(i).ResourceRecordValue().Elem()` -/
  | cvoValue (i : Nat)
  /-- `originAccessId.CloudfrontAccessIdentityPath` -/
  | oaiPath
  /-- `originAccessId.IamArn` -/
  | oaiIamArn
  /-- `cloudFrontDist.ID()` -/
  | distId
  /-- `cloudFrontDist.DomainName` -/
  | distDomainName
  /-- `cloudFrontDist.HostedZoneId` -/
  | distHostedZoneId
  /-- a plain string literal wrapped as an output -/
  | lit (s : String)
  /-- `pulumi.Sprintf("%v<s>", r)`: a reference with a literal suffix appended -/
  | suffix (r : Ref) (s : String)
deriving Repr, DecidableEq

/-- `s3.BucketWebsiteArgs`, src/main.go:110-113. -/
structure BucketWebsiteArgs where
  indexDocument : String
  errorDocument : String
deriving Repr, DecidableEq

/-- `s3.BucketArgs`, src/main.go:108-115. -/
structure BucketArgs where
  bucket : String
  website : BucketWebsiteArgs
  tags : List (String × String)
deriving Repr, DecidableEq

/-- `s3.BucketPublicAccessBlockArgs`, src/main.go:122-128. -/
structure BucketPublicAccessBlockArgs where
  bucket : Ref
  blockPublicAcls : Bool
  blockPublicPolicy : Bool
  ignorePublicAcls : Bool
  restrictPublicBuckets : Bool
deriving Repr, DecidableEq

/-- `s3.BucketObjectArgs`, src/main.go:135-141. -/
structure BucketObjectArgs where
  key : String
  bucket : Ref
  source : String
  contentType : String
  tags : List (String × String)
deriving Repr, DecidableEq

/-- `acm.CertificateArgs`, src/main.go:152-159. -/
structure CertificateArgs where
  domainName : String
  validationMethod : String
  subjectAlternativeNames : List String
  tags : List (String × String)
deriving Repr, DecidableEq

/-- `route53.RecordAliasArgs`, src/main.go:274-278. -/
structure RecordAliasArgs where
  name : Ref
  zoneId : Ref
  evaluateTargetHealth : Bool
deriving Repr, DecidableEq

/-- `route53.RecordArgs`: used both for the validation CNAME records
(src/main.go:167-175, with `Ttl` and `Records`) and for the alias records
(src/main.go:269-295, with `Aliases`). -/
structure RecordArgs where
  zoneId : String
  name : Ref
  rtype : String
  ttl : Option Nat
  records : List Ref
  aliases : List RecordAliasArgs
deriving Repr, DecidableEq

/-- `cloudfront.OriginAccessIdentityArgs`, src/main.go:185-187. -/
structure OriginAccessIdentityArgs where
  comment : String
deriving Repr, DecidableEq

/-- `cloudfront.DistributionOriginS3OriginConfigArgs`, src/main.go:198-200. -/
structure S3OriginConfigArgs where
  originAccessIdentity : Ref
deriving Repr, DecidableEq

/-- `cloudfront.DistributionOriginArgs`, src/main.go:195-201. -/
structure DistributionOriginArgs where
  domainName : Ref
  originId : Ref
  s3OriginConfig : S3OriginConfigArgs
deriving Repr, DecidableEq

/-- `cloudfront.DistributionDefaultCacheBehaviorForwardedValuesCookiesArgs`,
src/main.go:230-232. -/
structure ForwardedValuesCookiesArgs where
  forward : String
deriving Repr, DecidableEq

/-- `cloudfront.DistributionDefaultCacheBehaviorForwardedValuesArgs`,
src/main.go:228-233. -/
structure ForwardedValuesArgs where
  queryString : Bool
  cookies : ForwardedValuesCookiesArgs
deriving Repr, DecidableEq

/-- `cloudfront.DistributionDefaultCacheBehaviorArgs`, src/main.go:218-238. -/
structure DefaultCacheBehaviorArgs where
  allowedMethods : List String
  cachedMethods : List String
  targetOriginId : Ref
  forwardedValues : ForwardedValuesArgs
  viewerProtocolPolicy : String
  minTtl : Nat
  defaultTtl : Nat
  maxTtl : Nat
deriving Repr, DecidableEq

/-- `cloudfront.DistributionRestrictionsGeoRestrictionArgs`, src/main.go:241-250. -/
structure GeoRestrictionArgs where
  restrictionType : String
deriving Repr, DecidableEq

/-- `cloudfront.DistributionRestrictionsArgs`, src/main.go:240-251. -/
structure RestrictionsArgs where
  geoRestriction : GeoRestrictionArgs
deriving Repr, DecidableEq

/-- `cloudfront.DistributionViewerCertificateArgs`, src/main.go:252-257. -/
structure ViewerCertificateArgs where
  cloudfrontDefaultCertificate : Bool
  acmCertificateArn : Ref
  sslSupportMethod : String
  minimumProtocolVersion : String
deriving Repr, DecidableEq

/-- `cloudfront.DistributionArgs`, src/main.go:193-259. -/
structure DistributionArgs where
  origins : List DistributionOriginArgs
  enabled : Bool
  httpVersion : String
  isIpv6Enabled : Bool
  defaultRootObject : String
  aliases : List String
  defaultCacheBehavior : DefaultCacheBehaviorArgs
  priceClass : String
  restrictions : RestrictionsArgs
  viewerCertificate : ViewerCertificateArgs
  tags : List (String × String)
deriving Repr, DecidableEq

/-- `iam.GetPolicyDocumentStatementPrincipalArgs`, src/main.go:312-317. -/
structure PolicyPrincipalArgs where
  ptype : String
  identifiers : List Ref
deriving Repr, DecidableEq

/-- `iam.GetPolicyDocumentStatementArgs`, src/main.go:309-325. -/
structure PolicyStatementArgs where
  sid : String
  principals : List PolicyPrincipalArgs
  actions : List String
  resources : List Ref
deriving Repr, DecidableEq

/-- `iam.GetPolicyDocumentOutputArgs`, src/main.go:305-327. -/
structure PolicyDocumentArgs where
  policyId : String
  version : String
  statements : List PolicyStatementArgs
deriving Repr, DecidableEq

/-- `s3.BucketPolicyArgs`, src/main.go:330-335: the attached policy is the
JSON rendering of the policy document, carried here as the document itself. -/
structure BucketPolicyArgs where
  bucket : Ref
  policy : PolicyDocumentArgs
deriving Repr, DecidableEq

/-- One resource declaration submitted to the provisioning context; each
constructor carries the Pulumi resource name and the argument record. -/
inductive Decl where
  | bucket (resName : String) (args : BucketArgs)
  | publicAccessBlock (resName : String) (args : BucketPublicAccessBlockArgs)
  | bucketObject (resName : String) (args : BucketObjectArgs)
  | certificate (resName : String) (args : CertificateArgs)
  | record (resName : String) (args : RecordArgs)
  | originAccessIdentity (resName : String) (args : OriginAccessIdentityArgs)
  | distribution (resName : String) (args : DistributionArgs)
  | bucketPolicy (resName : String) (args : BucketPolicyArgs)
deriving Repr, DecidableEq

/-- The one bucket-object declaration made per directory entry in the upload
loop at src/main.go:134-145. -/
def objectDecl (cfg : Config) (fileName : String) : Decl :=
  .bucketObject fileName
    { key := fileName
      bucket := .bucketId
      source := cfg.siteDir ++ "/" ++ fileName
      contentType := "text/html"
      tags := tagsFor cfg }

/-- One validation CNAME declaration of the loop at src/main.go:166-179, for
loop index `i`. -/
def cnameDecl (cfg : Config) (zoneId : String) (i : Nat) : Decl :=
  .record (cfg.projectName ++ "Cname" ++ toString i)
    { zoneId := zoneId
      name := .cvoName i
      rtype := "CNAME"
      ttl := some 60
      records := [.cvoValue i]
      aliases := [] }

/-- The apex alias record declared at src/main.go:269-280 for record type
`rtype` (the loop at :268 runs the body for "A" then "AAAA"). -/
def apexAliasDecl (cfg : Config) (zoneId : String) (rtype : String) : Decl :=
  .record (cfg.projectName ++ rtype)
    { zoneId := zoneId
      name := .lit cfg.domainName
      rtype := rtype
      ttl := none
      records := []
      aliases := [{ name := .distDomainName
                    zoneId := .distHostedZoneId
                    evaluateTargetHealth := true }] }

/-- The `www` alias record declared at src/main.go:284-295 for record type
`rtype`. -/
def wwwAliasDecl (cfg : Config) (zoneId : String) (rtype : String) : Decl :=
  .record ("www" ++ cfg.projectName ++ rtype)
    { zoneId := zoneId
      name := .lit ("www." ++ cfg.domainName)
      rtype := rtype
      ttl := none
      records := []
      aliases := [{ name := .distDomainName
                    zoneId := .distHostedZoneId
                    evaluateTargetHealth := true }] }

/-- The `cloudfront.DistributionArgs` literal of src/main.go:193-259. -/
def distributionArgsFor (cfg : Config) : DistributionArgs :=
  { origins := [{ domainName := .bucketRegionalDomainName
                  originId := .bucketId
                  s3OriginConfig := { originAccessIdentity := .oaiPath } }]
    enabled := true
    httpVersion := "http2and3"
    isIpv6Enabled := true
    defaultRootObject := "index.html"
    aliases := [cfg.domainName, "www." ++ cfg.domainName]
    defaultCacheBehavior :=
      { allowedMethods := ["GET", "HEAD"]
        cachedMethods := ["GET", "HEAD"]
        targetOriginId := .bucketId
        forwardedValues := { queryString := false, cookies := { forward := "none" } }
        viewerProtocolPolicy := "redirect-to-https"
        minTtl := 0
        defaultTtl := 3600
        maxTtl := 86400 }
    priceClass := priceClassFor cfg.environmentName
    restrictions := { geoRestriction := { restrictionType := "none" } }
    viewerCertificate :=
      { cloudfrontDefaultCertificate := false
        acmCertificateArn := .certArn
        sslSupportMethod := "sni-only"
        minimumProtocolVersion := "TLSv1.2_2021" }
    tags := tagsFor cfg }

/-- The bucket policy document of src/main.go:305-327. -/
def bucketPolicyDocFor : PolicyDocumentArgs :=
  { policyId := "PolicyForCloudFrontPrivateContent"
    version := "2008-10-17"
    statements :=
      [{ sid := "1"
         principals := [{ ptype := "AWS", identifiers := [.oaiIamArn] }]
         actions := ["s3:GetObject"]
         resources := [.suffix .bucketArn "/*"] }] }

/-- The full sequence of resource declarations `main` submits, in source
order (src/main.go:108-338), given the directory listing and the looked-up
zone id.  The two bounded loops of the source (`for i := 0; i <= 1` at :166
and `for _, record := range []string{"A", "AAAA"}` at :268) are unrolled. -/
def stackDeclList (cfg : Config) (files : List String) (zoneId : String) : List Decl :=
  [ .bucket (cfg.projectName ++ "Bucket")
      { bucket := (webBucketFor cfg).name
        website := { indexDocument := (webBucketFor cfg).indexDocument
                     errorDocument := (webBucketFor cfg).errorDocument }
        tags := tagsFor cfg }
  , .publicAccessBlock (cfg.projectName ++ "BucketNoPublic")
      { bucket := .bucketId
        blockPublicAcls := true
        blockPublicPolicy := true
        ignorePublicAcls := true
        restrictPublicBuckets := true } ]
  ++ files.map (objectDecl cfg)
  ++ [ .certificate (cfg.projectName ++ "Cert")
        { domainName := cfg.domainName
          validationMethod := "DNS"
          subjectAlternativeNames := ["www." ++ cfg.domainName]
          tags := tagsFor cfg }
     , cnameDecl cfg zoneId 0
     , cnameDecl cfg zoneId 1
     , .originAccessIdentity (cfg.projectName ++ "OriginAccessId")
        { comment := cfg.projectName }
     , .distribution (cfg.projectName ++ "Distribution") (distributionArgsFor cfg)
     , apexAliasDecl cfg zoneId "A"
     , wwwAliasDecl cfg zoneId "A"
     , apexAliasDecl cfg zoneId "AAAA"
     , wwwAliasDecl cfg zoneId "AAAA"
     , .bucketPolicy (cfg.domainName ++ "BucketPolicy")
        { bucket := .bucketId, policy := bucketPolicyDocFor } ]

/-- The environment a run executes against: the outcome of `os.ReadDir`
(src/main.go:90), of `route53.LookupZone` (src/main.go:98), and, for each
declaration call counted from 0 in submission order, whether the
provisioning context accepts it (`none`) or returns an error. -/
structure Env where
  readDir : Except String (List String)
  zoneResult : Except String Zone
  declFail : Nat → Option String

/-- Mutable state of a run: declarations accepted so far, exports made, and
the number of declaration calls attempted. -/
structure RunState where
  decls : List Decl
  exports : List (String × Ref)
  counter : Nat
deriving Repr, DecidableEq

/-- The state a run starts in. -/
def initState : RunState := { decls := [], exports := [], counter := 0 }

/-- Submits declarations in order; each `if err != nil { return err }` of
the source aborts the run with the error unchanged, leaving later
declarations unsubmitted. -/
def submitAll (env : Env) : List Decl → RunState → Except String Unit × RunState
  | [], s => (.ok (), s)
  | d :: ds, s =>
    match env.declFail s.counter with
    | some e => (.error e, s)
    | none =>
        submitAll env ds
          { s with counter := s.counter + 1, decls := s.decls ++ [d] }

/-- The body of `pulumi.Run` (src/main.go:44-344): read the site directory,
look up the zone, submit every declaration in order, then make the two
exports (src/main.go:341-342).  Any failing step returns its error at once. -/
def buildStack (cfg : Config) (env : Env) (s : RunState) :
    Except String Unit × RunState :=
  match env.readDir with
  | .error e => (.error e, s)
  | .ok files =>
    match env.zoneResult with
    | .error e => (.error e, s)
    | .ok z =>
      match submitAll env (stackDeclList cfg files z.id) s with
      | (.error e, s1) => (.error e, s1)
      | (.ok _, s1) =>
          (.ok (), { s1 with
            exports := [("bucketName", Ref.bucketId), ("cloudFrontDist", Ref.distId)] })

/-- Runs the stack definition builder from the initial state. -/
def runStack (cfg : Config) (env : Env) : Except String Unit × RunState :=
  buildStack cfg env initState

/-- An environment in which every step succeeds: the directory listing is
`files`, the zone lookup returns `zoneId`, no declaration fails. -/
def happyEnv (files : List String) (zoneId : String) : Env :=
  { readDir := .ok files
    zoneResult := .ok { id := zoneId }
    declFail := fun _ => none }

/-- One entry of the certificate's domain-validation-options collection. -/
structure DomainValidationOption where
  resourceRecordName : String
  resourceRecordValue : String
deriving Repr, DecidableEq

/-- Modelled from the spec: the provider SDK's positional access
`DomainValidationOptions.Index(i)` into the certificate's validation-option
collection, which the repository's code performs for i = 0 and i = 1; the
SDK is not part of src/, and per the spec an index at or beyond the entry
count is out of range, modelled as `none`. -/
def validationOptionAt (opts : List DomainValidationOption) (i : Nat) :
    Option DomainValidationOption :=
  opts[i]?

/-- Projects a bucket-policy declaration to its name and arguments. -/
def Decl.bucketPolicyArgs : Decl → Option (String × BucketPolicyArgs)
  | .bucketPolicy n a => some (n, a)
  | _ => none

/-- Projects a distribution declaration to its name and arguments. -/
def Decl.distributionArgs : Decl → Option (String × DistributionArgs)
  | .distribution n a => some (n, a)
  | _ => none

/-- Projects a certificate declaration to its name and arguments. -/
def Decl.certificateArgs : Decl → Option (String × CertificateArgs)
  | .certificate n a => some (n, a)
  | _ => none

/-- Projects a bucket-object declaration to its name and arguments. -/
def Decl.bucketObjectArgs : Decl → Option (String × BucketObjectArgs)
  | .bucketObject n a => some (n, a)
  | _ => none

/-- Projects a public-access-block declaration to its name and arguments. -/
def Decl.publicAccessBlockArgs : Decl → Option (String × BucketPublicAccessBlockArgs)
  | .publicAccessBlock n a => some (n, a)
  | _ => none

/-- Projects a DNS record declaration with type CNAME to its name and
arguments. -/
def Decl.cnameRecordArgs : Decl → Option (String × RecordArgs)
  | .record n a => if a.rtype = "CNAME" then some (n, a) else none
  | _ => none

/-- Projects a DNS record declaration that carries an alias target to its
name and arguments. -/
def Decl.aliasRecordArgs : Decl → Option (String × RecordArgs)
  | .record n a => if a.aliases.isEmpty then none else some (n, a)
  | _ => none

/-! Helper lemmas shared by the claim theorems. -/

theorem submitAll_noFail (env : Env) (h : ∀ n, env.declFail n = none)
    (ds : List Decl) : ∀ s : RunState,
    submitAll env ds s =
      (.ok (), { s with decls := s.decls ++ ds, counter := s.counter + ds.length }) := by
  induction ds with
  | nil => intro s; simp [submitAll]
  | cons d ds ih =>
      intro s
      simp only [submitAll, h]
      rw [ih]
      have h1 : (s.decls ++ [d]) ++ ds = s.decls ++ d :: ds := by simp
      have h2 : s.counter + 1 + ds.length = s.counter + (ds.length + 1) := by omega
      simp [h1, h2]

theorem submitAll_fail (env : Env) (ds : List Decl) :
    ∀ (s : RunState) (k : Nat) (e : String),
    (∀ j, j < k → env.declFail (s.counter + j) = none) →
    env.declFail (s.counter + k) = some e →
    k < ds.length →
    submitAll env ds s =
      (.error e, { s with decls := s.decls ++ ds.take k, counter := s.counter + k }) := by
  induction ds with
  | nil =>
      intro s k e _ _ hlt
      simp at hlt
  | cons d ds ih =>
      intro s k e hnone hfail hlt
      cases k with
      | zero =>
          have h0 : env.declFail s.counter = some e := by simpa using hfail
          simp [submitAll, h0]
      | succ k =>
          have h0 : env.declFail s.counter = none := by
            have := hnone 0 (Nat.succ_pos k)
            simpa using this
          simp only [submitAll, h0]
          rw [ih _ k e ?_ ?_ ?_]
          · have h1 : (s.decls ++ [d]) ++ ds.take k = s.decls ++ (d :: ds).take (k + 1) := by
              simp
            have h2 : s.counter + 1 + k = s.counter + (k + 1) := by omega
            simp [h1, h2]
          · intro j hj
            have := hnone (j + 1) (by omega)
            simpa [Nat.add_assoc, Nat.add_comm 1 j] using this
          · simpa [Nat.add_assoc, Nat.add_comm 1 k] using hfail
          · simpa using hlt

theorem runStack_happy (cfg : Config) (files : List String) (zoneId : String) :
    runStack cfg (happyEnv files zoneId) =
      (.ok (), { decls := stackDeclList cfg files zoneId
                 exports := [("bucketName", Ref.bucketId), ("cloudFrontDist", Ref.distId)]
                 counter := (stackDeclList cfg files zoneId).length }) := by
  unfold runStack buildStack happyEnv
  simp only []
  rw [submitAll_noFail _ (fun _ => rfl)]
  simp [initState]

theorem stackDecls_happy (cfg : Config) (files : List String) (zoneId : String) :
    (runStack cfg (happyEnv files zoneId)).2.decls = stackDeclList cfg files zoneId := by
  rw [runStack_happy]

theorem filterMap_map_none {α β γ : Type} (f : β → Option γ) (g : α → β)
    (h : ∀ x, f (g x) = none) (l : List α) : (l.map g).filterMap f = [] := by
  induction l with
  | nil => rfl
  | cons x xs ih => simp [h, ih]

theorem filterMap_map_some {α β γ : Type} (f : β → Option γ) (g : α → β)
    (p : α → γ) (h : ∀ x, f (g x) = some (p x)) (l : List α) :
    (l.map g).filterMap f = l.map p := by
  induction l with
  | nil => rfl
  | cons x xs ih => simp [h, ih]

/-! Claim theorems. -/

/-- C1: on any successful run the bucket-policy declaration is unique and
contains exactly one statement, whose action set is exactly
{"s3:GetObject"}, whose sole principal identifier is the origin-access
identity's IAM ARN, and whose sole resource pattern is the bucket's ARN
suffixed with "/*"; the attachment references the bucket's identifier. -/
theorem policy_grants_getObject_to_oai_only (cfg : Config) (files : List String)
    (zoneId : String) :
    ((runStack cfg (happyEnv files zoneId)).2.decls).filterMap Decl.bucketPolicyArgs =
      [(cfg.domainName ++ "BucketPolicy",
        { bucket := Ref.bucketId
          policy :=
            { policyId := "PolicyForCloudFrontPrivateContent"
              version := "2008-10-17"
              statements :=
                [{ sid := "1"
                   principals := [{ ptype := "AWS", identifiers := [Ref.oaiIamArn] }]
                   actions := ["s3:GetObject"]
                   resources := [Ref.suffix Ref.bucketArn "/*"] }] } })] := by
  rw [stackDecls_happy]
  have hobj := filterMap_map_none Decl.bucketPolicyArgs (objectDecl cfg)
    (fun _ => rfl) files
  simp [stackDeclList, Decl.bucketPolicyArgs, hobj, cnameDecl, apexAliasDecl,
    wwwAliasDecl, bucketPolicyDocFor]

/-- C2: on any successful run the CDN distribution declaration is unique and
has exactly one origin (the bucket's regional domain name, gated by the
origin-access identity's path), a default cache behavior allowing and
caching exactly GET and HEAD with query-string forwarding off, cookie
forwarding "none", viewer protocol policy redirect-to-https and TTLs
0/3600/86400, aliases exactly {domain, www.domain}, geo-restriction "none",
and a viewer certificate using the declared certificate's ARN with
"sni-only" and a pinned minimum protocol version. -/
theorem distribution_single_origin_and_settings (cfg : Config) (files : List String)
    (zoneId : String) :
    ((runStack cfg (happyEnv files zoneId)).2.decls).filterMap Decl.distributionArgs =
      [(cfg.projectName ++ "Distribution",
        { origins := [{ domainName := Ref.bucketRegionalDomainName
                        originId := Ref.bucketId
                        s3OriginConfig := { originAccessIdentity := Ref.oaiPath } }]
          enabled := true
          httpVersion := "http2and3"
          isIpv6Enabled := true
          defaultRootObject := "index.html"
          aliases := [cfg.domainName, "www." ++ cfg.domainName]
          defaultCacheBehavior :=
            { allowedMethods := ["GET", "HEAD"]
              cachedMethods := ["GET", "HEAD"]
              targetOriginId := Ref.bucketId
              forwardedValues := { queryString := false, cookies := { forward := "none" } }
              viewerProtocolPolicy := "redirect-to-https"
              minTtl := 0
              defaultTtl := 3600
              maxTtl := 86400 }
          priceClass := priceClassFor cfg.environmentName
          restrictions := { geoRestriction := { restrictionType := "none" } }
          viewerCertificate :=
            { cloudfrontDefaultCertificate := false
              acmCertificateArn := Ref.certArn
              sslSupportMethod := "sni-only"
              minimumProtocolVersion := "TLSv1.2_2021" }
          tags := tagsFor cfg })] := by
  rw [stackDecls_happy]
  have hobj := filterMap_map_none Decl.distributionArgs (objectDecl cfg)
    (fun _ => rfl) files
  simp [stackDeclList, Decl.distributionArgs, hobj, cnameDecl, apexAliasDecl,
    wwwAliasDecl, distributionArgsFor]

/-- C5: on any successful run the bucket-object declarations are exactly one
per directory entry, in listing order, with key the entry's name, source
`<site dir>/<file name>`, and content type the fixed value "text/html". -/
theorem one_object_per_file (cfg : Config) (files : List String) (zoneId : String) :
    ((runStack cfg (happyEnv files zoneId)).2.decls).filterMap Decl.bucketObjectArgs =
      files.map (fun f =>
        (f, { key := f
              bucket := Ref.bucketId
              source := cfg.siteDir ++ "/" ++ f
              contentType := "text/html"
              tags := tagsFor cfg })) := by
  rw [stackDecls_happy]
  have hobj := filterMap_map_some Decl.bucketObjectArgs (objectDecl cfg)
    (fun f =>
      (f, { key := f
            bucket := Ref.bucketId
            source := cfg.siteDir ++ "/" ++ f
            contentType := "text/html"
            tags := tagsFor cfg }))
    (fun _ => rfl) files
  simp [stackDeclList, Decl.bucketObjectArgs, hobj, cnameDecl, apexAliasDecl,
    wwwAliasDecl]

/-- C8: on any successful run the certificate declaration is unique, its
domain name is the configured domain, its subject-alternative-name set is
exactly {www.<domain>}, and its validation method is "DNS". -/
theorem certificate_domain_san_dns (cfg : Config) (files : List String)
    (zoneId : String) :
    ((runStack cfg (happyEnv files zoneId)).2.decls).filterMap Decl.certificateArgs =
      [(cfg.projectName ++ "Cert",
        { domainName := cfg.domainName
          validationMethod := "DNS"
          subjectAlternativeNames := ["www." ++ cfg.domainName]
          tags := tagsFor cfg })] := by
  rw [stackDecls_happy]
  have hobj := filterMap_map_none Decl.certificateArgs (objectDecl cfg)
    (fun _ => rfl) files
  simp [stackDeclList, Decl.certificateArgs, hobj, cnameDecl, apexAliasDecl,
    wwwAliasDecl]

/-- C10: on any successful run the public-access-block declaration is unique,
references the declared bucket's identifier, and sets all four block
settings to true. -/
theorem public_access_block_all_true (cfg : Config) (files : List String)
    (zoneId : String) :
    ((runStack cfg (happyEnv files zoneId)).2.decls).filterMap Decl.publicAccessBlockArgs =
      [(cfg.projectName ++ "BucketNoPublic",
        { bucket := Ref.bucketId
          blockPublicAcls := true
          blockPublicPolicy := true
          ignorePublicAcls := true
          restrictPublicBuckets := true })] := by
  rw [stackDecls_happy]
  have hobj := filterMap_map_none Decl.publicAccessBlockArgs (objectDecl cfg)
    (fun _ => rfl) files
  simp [stackDeclList, Decl.publicAccessBlockArgs, hobj, cnameDecl, apexAliasDecl,
    wwwAliasDecl]

/-- C3: on any successful run exactly two CNAME validation records are
declared, indexed 0 and 1, record i taking its name from the certificate's
domain-validation-options entry at position i and its single value from the
same entry's value; and for any validation-option collection with fewer
than 2 entries the positional access at index 1 is out of range. -/
theorem validation_cnames_positional (cfg : Config) (files : List String)
    (zoneId : String) (opts : List DomainValidationOption)
    (hshort : opts.length < 2) :
    ((runStack cfg (happyEnv files zoneId)).2.decls).filterMap Decl.cnameRecordArgs =
      [(cfg.projectName ++ "Cname" ++ toString 0,
        { zoneId := zoneId, name := .cvoName 0, rtype := "CNAME", ttl := some 60,
          records := [.cvoValue 0], aliases := [] }),
       (cfg.projectName ++ "Cname" ++ toString 1,
        { zoneId := zoneId, name := .cvoName 1, rtype := "CNAME", ttl := some 60,
          records := [.cvoValue 1], aliases := [] })] ∧
    validationOptionAt opts 1 = none := by
  constructor
  · rw [stackDecls_happy]
    have hobj := filterMap_map_none Decl.cnameRecordArgs (objectDecl cfg)
      (fun _ => rfl) files
    simp [stackDeclList, Decl.cnameRecordArgs, hobj, cnameDecl, apexAliasDecl,
      wwwAliasDecl]
  · match opts, hshort with
    | [], _ => rfl
    | [a], _ => rfl

/-- C3 witness: the theorem instantiated at the compiled-in configuration,
an empty site directory, and an empty validation-option collection. -/
theorem validation_cnames_positional_witness :
    ((runStack defaultConfig (happyEnv [] "Z")).2.decls).filterMap Decl.cnameRecordArgs =
      [(defaultConfig.projectName ++ "Cname" ++ toString 0,
        { zoneId := "Z", name := .cvoName 0, rtype := "CNAME", ttl := some 60,
          records := [.cvoValue 0], aliases := [] }),
       (defaultConfig.projectName ++ "Cname" ++ toString 1,
        { zoneId := "Z", name := .cvoName 1, rtype := "CNAME", ttl := some 60,
          records := [.cvoValue 1], aliases := [] })] ∧
    validationOptionAt [] 1 = none :=
  validation_cnames_positional defaultConfig [] "Z" [] (by decide)

/-- C6: on any successful run exactly four alias DNS records are declared —
apex A, www A, apex AAAA, www AAAA — each in the looked-up zone and each
with a single alias target: the distribution's domain name and hosted-zone
id with target-health evaluation enabled. -/
theorem four_alias_records (cfg : Config) (files : List String) (zoneId : String) :
    ((runStack cfg (happyEnv files zoneId)).2.decls).filterMap Decl.aliasRecordArgs =
      [(cfg.projectName ++ "A",
        { zoneId := zoneId, name := .lit cfg.domainName, rtype := "A", ttl := none,
          records := [],
          aliases := [{ name := .distDomainName, zoneId := .distHostedZoneId,
                        evaluateTargetHealth := true }] }),
       ("www" ++ cfg.projectName ++ "A",
        { zoneId := zoneId, name := .lit ("www." ++ cfg.domainName), rtype := "A",
          ttl := none, records := [],
          aliases := [{ name := .distDomainName, zoneId := .distHostedZoneId,
                        evaluateTargetHealth := true }] }),
       (cfg.projectName ++ "AAAA",
        { zoneId := zoneId, name := .lit cfg.domainName, rtype := "AAAA", ttl := none,
          records := [],
          aliases := [{ name := .distDomainName, zoneId := .distHostedZoneId,
                        evaluateTargetHealth := true }] }),
       ("www" ++ cfg.projectName ++ "AAAA",
        { zoneId := zoneId, name := .lit ("www." ++ cfg.domainName), rtype := "AAAA",
          ttl := none, records := [],
          aliases := [{ name := .distDomainName, zoneId := .distHostedZoneId,
                        evaluateTargetHealth := true }] })] := by
  rw [stackDecls_happy]
  have hobj := filterMap_map_none Decl.aliasRecordArgs (objectDecl cfg)
    (fun _ => rfl) files
  simp [stackDeclList, Decl.aliasRecordArgs, hobj, cnameDecl, apexAliasDecl,
    wwwAliasDecl]

/-- C7: price-class resolution is a total pure function mapping "dev" to the
regional tier, "prod" to the global tier, and any other value to the same
regional tier as the "dev" case. -/
theorem priceClass_total_with_fallback :
    priceClassFor "dev" = "PriceClass_100" ∧
    priceClassFor "prod" = "PriceClass_All" ∧
    ∀ s, s ≠ "dev" → s ≠ "prod" → priceClassFor s = priceClassFor "dev" := by
  refine ⟨rfl, rfl, ?_⟩
  intro s h1 h2
  unfold priceClassFor
  split <;> simp_all

/-- C7 witness: an unrecognized environment name falls back to the "dev"
tier. -/
theorem priceClass_total_with_fallback_witness :
    priceClassFor "staging" = priceClassFor "dev" :=
  priceClass_total_with_fallback.2.2 "staging" (by decide) (by decide)

/-- C4: every failing step aborts the run at once with the error unchanged.
If the directory read fails, or the zone lookup fails, the run returns that
error with no declaration submitted; if the k-th declaration call is the
first to fail, the run returns that error with exactly the first k
declarations submitted and no exports made. -/
theorem first_error_aborts_run (cfg : Config) (env : Env) :
    (∀ e, env.readDir = .error e → runStack cfg env = (.error e, initState)) ∧
    (∀ files e, env.readDir = .ok files → env.zoneResult = .error e →
        runStack cfg env = (.error e, initState)) ∧
    (∀ files z k e, env.readDir = .ok files → env.zoneResult = .ok z →
        (∀ j, j < k → env.declFail j = none) → env.declFail k = some e →
        k < (stackDeclList cfg files z.id).length →
        runStack cfg env =
          (.error e, { decls := (stackDeclList cfg files z.id).take k
                       exports := []
                       counter := k })) := by
  refine ⟨?_, ?_, ?_⟩
  · intro e h
    unfold runStack buildStack
    rw [h]
  · intro files e hrd hz
    unfold runStack buildStack
    rw [hrd, hz]
  · intro files z k e hrd hz hnone hfail hlt
    unfold runStack buildStack
    rw [hrd, hz]
    dsimp only
    rw [submitAll_fail env _ initState k e ?_ ?_ hlt]
    · simp [initState]
    · intro j hj
      simpa [initState] using hnone j hj
    · simpa [initState] using hfail

/-- C4 witness: a failing directory read aborts the run with that error and
no declaration submitted. -/
theorem first_error_aborts_run_witness :
    runStack defaultConfig
        { readDir := .error "io failure"
          zoneResult := .ok { id := "Z" }
          declFail := fun _ => none } =
      (.error "io failure", initState) :=
  (first_error_aborts_run defaultConfig
    { readDir := .error "io failure"
      zoneResult := .ok { id := "Z" }
      declFail := fun _ => none }).1 "io failure" rfl

/-- C9: any run that returns success has made exactly the two named exports,
"bucketName" bound to the bucket's identifier and "cloudFrontDist" bound to
the distribution's identifier. -/
theorem successful_run_exports (cfg : Config) (env : Env)
    (h : (runStack cfg env).1 = .ok ()) :
    (runStack cfg env).2.exports =
      [("bucketName", Ref.bucketId), ("cloudFrontDist", Ref.distId)] := by
  unfold runStack buildStack at h ⊢
  cases hrd : env.readDir with
  | error e => simp [hrd] at h
  | ok files =>
    cases hz : env.zoneResult with
    | error e => simp [hrd, hz] at h
    | ok z =>
      cases hs : submitAll env (stackDeclList cfg files z.id) initState with
      | mk r s1 =>
        cases r with
        | error e => simp [hrd, hz, hs] at h
        | ok u => simp [hrd, hz, hs]

/-- C9 witness: the exports of a concrete successful run. -/
theorem successful_run_exports_witness :
    (runStack defaultConfig (happyEnv ["index.html", "error.html"] "Z")).2.exports =
      [("bucketName", Ref.bucketId), ("cloudFrontDist", Ref.distId)] :=
  successful_run_exports defaultConfig (happyEnv ["index.html", "error.html"] "Z")
    (by rw [runStack_happy])

end StaticSite
